import Mathlib

/-!
Verification of the Adashi WhatsApp bot engine (shallow embedding).

The definitions below are translated from the JavaScript
sources: `src/api/index.js` and the unnamed source files
`src/unnamed/part_000` … `part_004`.  Messages are modelled as `List Char`;
Airtable/Redis tables are modelled as Lean lists of records; record
identifiers are natural numbers; monetary amounts are exact integer
hundredths of a currency unit (every JS number the code derives from a
regex capture is an exact multiple of 0.01; `amountVal` recovers the JS
number).  Each webhook
branch relevant to a claim is modelled as a pure state-transition
function.
-/

namespace Adashi

/-! ## Character and list utilities (JS regex primitive semantics) -/

/-- JS `\s` for the characters appearing in this code base. -/
def isWsp (c : Char) : Bool := c = ' ' || c = '\t' || c = '\n' || c = '\r'

/-- JS `\w` word character: `[A-Za-z0-9_]`. -/
def isWordChar (c : Char) : Bool := c.isAlphanum || c = '_'

/-- Case-sensitive literal match of `p` at the head of the second list. -/
def startsWithL : List Char → List Char → Bool
  | [], _ => true
  | _ :: _, [] => false
  | p :: ps, c :: cs => (p = c) && startsWithL ps cs

/-- Case-insensitive literal match of `p` at the head of the second list
(JS `/i` flag). -/
def ciStartsWith : List Char → List Char → Bool
  | [], _ => true
  | _ :: _, [] => false
  | p :: ps, c :: cs => (p.toLower = c.toLower) && ciStartsWith ps cs

/-- A `\b` word boundary holds at a string edge or against a non-word
character. -/
def boundaryOk : Option Char → Bool
  | none => true
  | some c => !(isWordChar c)

/-- JS `\bkw\b` matches at position `i` of `l` (literal `kw`). -/
def wordAt (l : List Char) (i : ℕ) (kw : List Char) : Bool :=
  startsWithL kw (l.drop i) && boundaryOk (l.get? (i + kw.length)) &&
    (match i with
     | 0 => true
     | j + 1 => boundaryOk (l.get? j))

/-- JS `\b(kw₁|kw₂|…)\b` matches somewhere in `l`. -/
def hasWord (kws : List (List Char)) (l : List Char) : Bool :=
  (List.range l.length).any (fun i => kws.any (fun kw => wordAt l i kw))

/-- JS `String.prototype.trim` on a character list. -/
def trimL (l : List Char) : List Char :=
  ((l.dropWhile isWsp).reverse.dropWhile isWsp).reverse

/-- JS `String.prototype.toLowerCase` on a character list. -/
def lowerL (l : List Char) : List Char := l.map Char.toLower

/-- Numeric value of a digit run. -/
def natOfDigits (l : List Char) : ℕ :=
  l.foldl (fun acc c => acc * 10 + (c.toNat - 48)) 0

/-! ## IntentClassifier — `detectIntent` (src/api/index.js 80-117,
src/unnamed/part_003 649-733: identical payment and name branches) -/

/-- Content of the first match of the amount regex
`/(\d+(?:,\d{3})*(?:\.\d{2})?)\s*(naira|₦|ngn|k)?/i`.
Every value `parseFloat` can produce from capture group 1 is an exact
multiple of 0.01, so amounts are carried as exact integer hundredths:
`valueH` is `100 * parseFloat(match[1].replace(/,/g, ''))` and `sufK`
records whether capture group 2 matched and lowercases to `k`. -/
structure AmountMatch where
  valueH : ℕ
  sufK : Bool
deriving DecidableEq, Repr

/-- The JS number an integer number of hundredths stands for. -/
def amountVal (h : ℕ) : ℚ := (h : ℚ) / 100

/-- Greedy `(?:,\d{3})*`: consume comma-separated three-digit groups,
returning the digits (commas stripped) and the rest of the input. -/
def commaGroups : List Char → List Char × List Char
  | ',' :: a :: b :: c :: rest =>
    if a.isDigit && b.isDigit && c.isDigit then
      let m := commaGroups rest
      (a :: b :: c :: m.1, m.2)
    else ([], ',' :: a :: b :: c :: rest)
  | l => ([], l)

/-- Greedy `(?:\.\d{2})?`: an optional decimal point followed by exactly
two digits. -/
def matchFrac : List Char → Option ℕ × List Char
  | '.' :: a :: b :: rest =>
    if a.isDigit && b.isDigit then (some (natOfDigits [a, b]), rest)
    else (none, '.' :: a :: b :: rest)
  | l => (none, l)

/-- Greedy alternation `(naira|₦|ngn|k)?` (case-insensitive, in regex
order), returning the canonical lowercase token that matched. -/
def suffixTok (l : List Char) : Option (List Char) :=
  if ciStartsWith "naira".data l then some "naira".data
  else if ciStartsWith "₦".data l then some "₦".data
  else if ciStartsWith "ngn".data l then some "ngn".data
  else if ciStartsWith "k".data l then some "k".data
  else none

/-- Match the amount regex at a position whose head is a digit.  The
captured number `iv.ff` is carried as `iv * 100 + ff` hundredths. -/
def amountMatchHere (l : List Char) : AmountMatch :=
  let intPart := l.takeWhile Char.isDigit
  let rest1 := l.dropWhile Char.isDigit
  let cg := commaGroups rest1
  let fr := matchFrac cg.2
  let rest3 := fr.2.dropWhile isWsp
  let vH : ℕ :=
    natOfDigits (intPart ++ cg.1) * 100 +
      (match fr.1 with
       | none => 0
       | some f => f)
  ⟨vH, suffixTok rest3 = some "k".data⟩

/-- Leftmost match of the amount regex: the first digit position wins
because every later regex element is optional. -/
def firstAmountMatch : List Char → Option AmountMatch
  | [] => none
  | c :: cs =>
    if c.isDigit then some (amountMatchHere (c :: cs))
    else firstAmountMatch cs

/-- The payment-verb test
`/\b(paid|pay|sent|send|transferred|transfer|deposited|deposit|contribute|contribution)\b/i`,
applied to the lowercased message. -/
def hasPaymentKeyword (lowerMsg : List Char) : Bool :=
  hasWord
    ["paid".data, "pay".data, "sent".data, "send".data, "transferred".data,
     "transfer".data, "deposited".data, "deposit".data, "contribute".data,
     "contribution".data] lowerMsg

/-- Alternation `(?:my name is|i am|i\x27m|call me|this is|name:?)` at the head
of `l`, returning the number of characters consumed.  At any position, at
most one alternative can match, so first-match order is exact. -/
def nameAltHere (l : List Char) : Option ℕ :=
  if ciStartsWith "my name is".data l then some 10
  else if ciStartsWith "i am".data l then some 4
  else if ciStartsWith ['i', Char.ofNat 39, 'm'] l then some 3
  else if ciStartsWith "call me".data l then some 7
  else if ciStartsWith "this is".data l then some 7
  else if ciStartsWith "name".data l then
    (if ciStartsWith [':'] (l.drop 4) then some 5 else some 4)
  else none

/-- Greedy `[a-zA-Z\s]{0,n}` (used for the `{2,40}` tail of the capture). -/
def takeNameTail : ℕ → List Char → List Char
  | 0, _ => []
  | _, [] => []
  | n + 1, c :: cs =>
    if c.isAlpha || isWsp c then c :: takeNameTail n cs else []

/-- Complete `\s+([a-zA-Z][a-zA-Z\s]{2,40})` after a matched alternative;
returns capture group 1. -/
def nameCaptureAfter (rest : List Char) : Option (List Char) :=
  let ws := rest.takeWhile isWsp
  if ws.length = 0 then none
  else
    match rest.dropWhile isWsp with
    | [] => none
    | c :: cs =>
      if c.isAlpha then
        let tail := takeNameTail 40 cs
        if 2 ≤ tail.length then some (c :: tail) else none
      else none

/-- Leftmost full match of the name regex
`/(?:my name is|i am|i\x27m|call me|this is|name:?)\s+([a-zA-Z][a-zA-Z\s]{2,40})/i`;
positions are scanned left to right and a failed completion moves on to
the next position, as in the JS engine. -/
def nameSearch : List Char → Option (List Char)
  | [] => none
  | c :: cs =>
    match nameAltHere (c :: cs) with
    | some len =>
      match nameCaptureAfter ((c :: cs).drop len) with
      | some cap => some cap
      | none => nameSearch cs
    | none => nameSearch cs

/-- The placeholder blacklist `/\b(user|unknown|member)\b/i`. -/
def nameBlacklisted (l : List Char) : Bool :=
  hasWord ["user".data, "unknown".data, "member".data] (lowerL l)

/-- Structured intent returned by `detectIntent`; a payment amount is in
exact hundredths (`amountVal` recovers the JS number). -/
inductive Intent where
  | payment (amountH : ℕ)
  | nameUpdate (name : List Char)
deriving DecidableEq, Repr

/-- JS `finalAmount = match[2] === 'k' ? amount * 1000 : amount`, in
hundredths. -/
def finalAmountH (am : AmountMatch) : ℕ :=
  if am.sufK then am.valueH * 1000 else am.valueH

/-- The payment branch of `detectIntent`: returns an intent only when the
amount regex matched, a payment verb is present, and the final amount is
strictly between 0 and 1,000,000.  On hundredths the JS range test
`finalAmount > 0 && finalAmount < 1000000` is exactly
`0 < finalAmountH ∧ finalAmountH < 100000000`. -/
def paymentBranch (message lowerMsg : List Char) : Option Intent :=
  match firstAmountMatch message with
  | none => none
  | some am =>
    if hasPaymentKeyword lowerMsg then
      if 0 < finalAmountH am ∧ finalAmountH am < 100000000 then
        some (Intent.payment (finalAmountH am))
      else none
    else none

/-- The name-update branch of `detectIntent`: trims capture group 1,
requires length > 2 and a non-blacklisted value. -/
def nameBranch (message : List Char) : Option Intent :=
  match nameSearch message with
  | none => none
  | some cap =>
    let extractedName := trimL cap
    if extractedName ≠ [] ∧ 2 < extractedName.length ∧
        nameBlacklisted extractedName = false then
      some (Intent.nameUpdate extractedName)
    else none

/-- JS `detectIntent` (src/api/index.js 80-117): payment branch first, then
name update, else no intent. -/
def detectIntent (message : List Char) : Option Intent :=
  match paymentBranch message (lowerL message) with
  | some i => some i
  | none => nameBranch message

/-! ## ConfirmationGate — pending actions
(src/api/index.js 51-77, src/unnamed/part_003 622-645; the two are
identical).  The store is per identity, so it is modelled as an
`Option PendingRec` for the one identity under consideration; time is
milliseconds since epoch. -/

/-- Payload of a pending action, as set from a detected intent
(part_003 also arms `create_group`/`join_group` intents); payment amounts
are in hundredths. -/
inductive PAction where
  | payment (amountH : ℕ)
  | nameUpdate (name : List Char)
  | createGroup (groupName : List Char)
  | joinGroup (groupName : List Char)
deriving DecidableEq, Repr

/-- A stored pending action: `{...action, timestamp, expiresAt}`. -/
structure PendingRec where
  act : PAction
  timestamp : ℕ
  expiresAt : ℕ
deriving DecidableEq, Repr

/-- JS `setPendingAction`: `expiresAt = Date.now() + 5 * 60 * 1000`. -/
def setPendingAction (now : ℕ) (a : PAction) : PendingRec :=
  ⟨a, now, now + 5 * 60 * 1000⟩

/-- JS `getPendingAction`: returns the record unless `Date.now() > expiresAt`,
in which case the record is deleted and `null` is returned.  The result is
(returned value, store afterwards). -/
def getPendingAction (now : ℕ) :
    Option PendingRec → Option PendingRec × Option PendingRec
  | none => (none, none)
  | some r => if r.expiresAt < now then (none, none) else (some r, some r)

/-- JS `clearPendingAction`: unconditional delete. -/
def clearPendingAction (_s : Option PendingRec) : Option PendingRec := none

/-- The confirmation-vocabulary test
`/^(yes|yeah|yep|confirm|confirmed|correct|ok|okay|sure|proceed|go ahead)$/i`
applied to the trimmed message body. -/
def isConfirmText (text : List Char) : Bool :=
  let t := lowerL (trimL text)
  ["yes".data, "yeah".data, "yep".data, "confirm".data, "confirmed".data,
   "correct".data, "ok".data, "okay".data, "sure".data, "proceed".data,
   "go ahead".data].any (fun w => t = w)

/-! ## Backing-store record types -/

/-- A row of the Members table (the fields the engine reads/writes).
Absent Airtable fields are `none`. -/
structure Member where
  id : ℕ
  fullName : String
  phoneNumber : String
  whatsappNumber : String
  leaderPhone : Option String
  group : Option String
  status : String
  joinDate : String
deriving DecidableEq, Repr

/-- A row of the Groups table. -/
structure Group where
  id : ℕ
  name : String
  leaderPhone : String
deriving DecidableEq, Repr

/-- A row of the Contributions table as written by `recordContribution`. -/
structure Contribution where
  name : String
  amountH : ℕ
  date : String
  method : String
deriving DecidableEq, Repr

/-- A row of the PendingPayments table as written by
`createPendingPayment`. -/
structure PendingPayment where
  id : ℕ
  memberPhone : String
  leaderPhone : String
  amountH : ℕ
  status : String
  createdAt : String
deriving DecidableEq, Repr

/-- The Airtable base slice used by the part_003 engine. -/
structure Store3 where
  members : List Member
  groups : List Group
  contributions : List Contribution
  pendingPayments : List PendingPayment
deriving DecidableEq, Repr

/-! ## Members helpers -/

/-- JS `getMemberByPhone`:
`filterByFormula: OR({Phone Number} = p, {WhatsApp Number} = p)`,
`maxRecords: 1` — the first matching row. -/
def getMemberByPhone (phone : String) (members : List Member) : Option Member :=
  members.find? (fun m => m.phoneNumber == phone || m.whatsappNumber == phone)

/-- Replace the `Full Name` field of a member. -/
def withName (m : Member) (newName : String) : Member :=
  ⟨m.id, newName, m.phoneNumber, m.whatsappNumber, m.leaderPhone, m.group,
   m.status, m.joinDate⟩

/-- JS `updateMemberName` (src/unnamed/part_003 801-819): update whenever the
member exists, `false` only when the lookup fails. -/
def updateMemberName (members : List Member) (phone newName : String) :
    Bool × List Member :=
  match getMemberByPhone phone members with
  | none => (false, members)
  | some m =>
    (true, members.map (fun x => if x.id = m.id then withName x newName else x))

/-- JS `updateMemberName` (src/api/index.js 185-202): update only when the
stored name is the placeholder `"Unknown"` or equals the phone number. -/
def updateMemberName_api (members : List Member) (phone newName : String) :
    Bool × List Member :=
  match getMemberByPhone phone members with
  | none => (false, members)
  | some m =>
    if m.fullName = "Unknown" ∨ m.fullName = phone then
      (true,
       members.map (fun x => if x.id = m.id then withName x newName else x))
    else (false, members)

/-- JS `ensureMember` (src/unnamed/part_003 1575-1593): lookup by phone, return
the existing record unchanged, else create one with both number fields set
to the phone.  `nid` is the record id Airtable would mint. -/
def ensureMember (phone : String) (name : Option String)
    (members : List Member) (nid : ℕ) (today : String) : Member × List Member :=
  match getMemberByPhone phone members with
  | some m => (m, members)
  | none =>
    let nm : Member :=
      ⟨nid, name.getD "Unknown", phone, phone, none, none, "Active", today⟩
    (nm, members ++ [nm])

/-- JS `recordContribution` (src/unnamed/part_003 821-847): member lookup, then
create one Contributions row; `false` (no write) when the member is
absent. -/
def recordContribution (st : Store3) (phone : String) (amountH : ℕ)
    (cycleMonth todayS : String) : Bool × Store3 :=
  match getMemberByPhone phone st.members with
  | none => (false, st)
  | some m =>
    (true,
     ⟨st.members, st.groups,
      st.contributions ++
        [⟨m.fullName ++ " - " ++ cycleMonth, amountH, todayS, "WhatsApp Bot"⟩],
      st.pendingPayments⟩)

/-! ## Groups helpers (src/unnamed/part_003 867-948) -/

/-- JS `getGroupByName`. -/
def getGroupByName (name : String) (groups : List Group) : Option Group :=
  groups.find? (fun g => g.name == name)

/-- JS `getGroupByLeaderPhone`. -/
def getGroupByLeaderPhone (phone : String) (groups : List Group) : Option Group :=
  groups.find? (fun g => g.leaderPhone == phone)

/-- JS `createGroup`: returns the existing group when the leader already has
one (idempotent), else creates one with id `gid`. -/
def createGroup (name leaderPhone : String) (groups : List Group) (gid : ℕ) :
    Group × List Group :=
  match getGroupByLeaderPhone leaderPhone groups with
  | some g => (g, groups)
  | none =>
    let g : Group := ⟨gid, name, leaderPhone⟩
    (g, groups ++ [g])

/-- JS `assignMemberToGroup`: writes the group name and the leader
phone onto the member row. -/
def assignMemberToGroup (members : List Member) (mrec : Member) (g : Group) :
    List Member :=
  members.map (fun x =>
    if x.id = mrec.id then
      ⟨x.id, x.fullName, x.phoneNumber, x.whatsappNumber, some g.leaderPhone,
       some g.name, x.status, x.joinDate⟩
    else x)

/-! ## Pending payments (src/unnamed/part_003 950-1012) -/

/-- JS `createPendingPayment`: one PendingPayments row with
`Status: "Awaiting Leader"`. -/
def createPendingPayment (st : Store3) (memberPhone leaderPhone : String)
    (amountH : ℕ) (pid : ℕ) (createdAt : String) : PendingPayment × Store3 :=
  let rec0 : PendingPayment :=
    ⟨pid, memberPhone, leaderPhone, amountH, "Awaiting Leader", createdAt⟩
  (rec0,
   ⟨st.members, st.groups, st.contributions, st.pendingPayments ++ [rec0]⟩)

/-- JS `approvePendingPayment`: set `Status: "Approved"` on the row `pid`. -/
def approvePendingPayment (st : Store3) (pid : ℕ) : Store3 :=
  ⟨st.members, st.groups, st.contributions,
   st.pendingPayments.map (fun p =>
     if p.id = pid then
       ⟨p.id, p.memberPhone, p.leaderPhone, p.amountH, "Approved", p.createdAt⟩
     else p)⟩

/-- JS `RECORD_ID() = pid` lookup in PendingPayments. -/
def findPendingPayment (pid : ℕ) (l : List PendingPayment) :
    Option PendingPayment :=
  l.find? (fun p => p.id = pid)

/-! ## part_003 webhook: outbound messages

Each message template sent by the modelled branches is one constructor;
payloads carry the data interpolated into the JS template string. -/

inductive Reply3 where
  /-- Reply `I couldn\x27t find any pending payment with ID ...` -/
  | pendingNotFound (pid : ℕ)
  /-- Reply `This payment request is already ...` -/
  | alreadyStatus (status : String)
  /-- leader ack: `Thanks! I\x27ve recorded a contribution of ...` -/
  | contributionRecorded (memberPhone : String) (amountH : ℕ)
  /-- member notice: `Your leader has confirmed your payment of ...` -/
  | leaderConfirmedNotice (amountH : ℕ)
  /-- Reply `There was an error recording the contribution for ...` -/
  | contributionError (memberPhone : String)
  /-- Reply `... you are not linked to any group leader yet ...` -/
  | noLeaderGuidance (amountH : ℕ)
  /-- Reply `Sorry, I couldn\x27t create a pending payment record right now ...` -/
  | pendingCreateFail
  /-- Reply `Thanks! I have recorded your payment of ... as pending ...` -/
  | paymentPendingThanks (amountH : ℕ)
  /-- leader prompt ending `"confirm payment <id>" ... "reject payment <id>"` -/
  | leaderConfirmRequest (memberName memberPhone : String) (amountH : ℕ)
      (pid : ℕ)
  /-- Reply `Great! I\x27ve updated your name to ...` -/
  | nameUpdated (name : List Char)
  /-- Reply `I wasn\x27t able to update your name right now ...` -/
  | nameUpdateFail
  /-- Reply `Great! I\x27ve created a new group called ...` -/
  | groupCreated (g : List Char)
  /-- Reply `Sorry, there was a problem creating the group ...` -/
  | groupCreateFail (g : List Char)
  /-- Reply `You have been added to the group ...` -/
  | joinedGroup (g : List Char)
  /-- Reply `I couldn\x27t find a group named ...` -/
  | groupNotFound (g : List Char)
deriving DecidableEq, Repr

/-- JS `member.fields["Full Name"] || from`. -/
def memberNameOr (m : Member) (phone : String) : String :=
  if m.fullName = "" then phone else m.fullName

/-- JS falsy test on the `"Leader Phone"` field
(an absent field and an empty string are both falsy). -/
def leaderOf (m : Member) : Option String :=
  match m.leaderPhone with
  | none => none
  | some l => if l = "" then none else some l

/-- Execution of a confirmed pending action (src/unnamed/part_003
1366-1418).  `memberRecord` is the `createOrUpdateMember` result computed
earlier in the webhook; `pid`/`gid` are the record ids a successful create
would mint.  Returns (new store, reply to the sender, optional message to
the leader). -/
def executeAction (phone : String) (memberRecord : Option Member)
    (act : PAction) (st : Store3) (pid gid : ℕ) (nowIso : String) :
    Store3 × Reply3 × Option Reply3 :=
  match act with
  | PAction.payment a =>
    match getMemberByPhone phone st.members with
    | none => (st, Reply3.noLeaderGuidance a, none)
    | some m =>
      match leaderOf m with
      | none => (st, Reply3.noLeaderGuidance a, none)
      | some l =>
        let cr := createPendingPayment st phone l a pid nowIso
        (cr.2, Reply3.paymentPendingThanks a,
         some (Reply3.leaderConfirmRequest (memberNameOr m phone) phone a
           cr.1.id))
  | PAction.nameUpdate n =>
    let u := updateMemberName st.members phone (String.mk n)
    (⟨u.2, st.groups, st.contributions, st.pendingPayments⟩,
     if u.1 then Reply3.nameUpdated n else Reply3.nameUpdateFail, none)
  | PAction.createGroup g =>
    let c := createGroup (String.mk g) phone st.groups gid
    let members2 :=
      match memberRecord with
      | some mr => assignMemberToGroup st.members mr c.1
      | none => st.members
    (⟨members2, c.2, st.contributions, st.pendingPayments⟩,
     Reply3.groupCreated g, none)
  | PAction.joinGroup g =>
    match getGroupByName (String.mk g) st.groups, memberRecord with
    | some grp, some mr =>
      (⟨assignMemberToGroup st.members mr grp, st.groups, st.contributions,
        st.pendingPayments⟩, Reply3.joinedGroup g, none)
    | _, _ => (st, Reply3.groupNotFound g, none)

/-- The `if (pendingAction && isConfirmation)` branch of the part_003
webhook (1366-1424): on a match the action is executed and then
`clearPendingAction(from)` runs, whatever the execution produced.  Returns
(pending store afterwards, backing store afterwards, whether the branch
handled the message). -/
def webhookConfirmStep (phone : String) (memberRecord : Option Member)
    (text : List Char) (now : ℕ) (pend : Option PendingRec) (st : Store3)
    (pid gid : ℕ) (nowIso : String) :
    Option PendingRec × Store3 × Bool :=
  let got := getPendingAction now pend
  match got.1 with
  | some r =>
    if isConfirmText text then
      let ex := executeAction phone memberRecord r.act st pid gid nowIso
      (clearPendingAction got.2, ex.1, true)
    else (got.2, st, false)
  | none => (got.2, st, false)

/-- The `leader_confirm_payment` branch of the part_003 webhook
(1279-1323): find the row by id; refuse when it is not
`"Awaiting Leader"`; else record the contribution and, only on success,
approve.  Returns (new store, reply to the leader, optional message to the
member). -/
def leaderConfirmStep (pendingId : ℕ) (st : Store3)
    (cycleMonth todayS : String) : Store3 × Reply3 × Option Reply3 :=
  match findPendingPayment pendingId st.pendingPayments with
  | none => (st, Reply3.pendingNotFound pendingId, none)
  | some pp =>
    if pp.status ≠ "Awaiting Leader" then
      (st, Reply3.alreadyStatus pp.status, none)
    else
      let rc := recordContribution st pp.memberPhone pp.amountH cycleMonth todayS
      if rc.1 then
        (approvePendingPayment rc.2 pp.id,
         Reply3.contributionRecorded pp.memberPhone pp.amountH,
         some (Reply3.leaderConfirmedNotice pp.amountH))
      else (rc.2, Reply3.contributionError pp.memberPhone, none)

/-! ## WizardEngine (src/unnamed/part_004 286-503) -/

/-- The wizard modes held in `userState`; `none` is the empty state
`{}`. -/
inductive WizMode where
  | none
  | askName
  | groupName
  | groupDescription
  | groupStartDate
  | groupEndDate
  | groupReminder
deriving DecidableEq, Repr

/-- The partial record accumulated in `state.data`. -/
structure WizData where
  name : Option String
  description : Option String
  startDate : Option String
  endDate : Option String
  reminderFrequency : Option String
deriving DecidableEq, Repr

def emptyWizData : WizData := ⟨none, none, none, none, none⟩

/-- One `userState` entry. -/
structure WizState where
  mode : WizMode
  data : WizData
deriving DecidableEq, Repr

/-- JS `userState.set(phone, {})`. -/
def emptyWizState : WizState := ⟨WizMode.none, emptyWizData⟩

/-- The fixed step sequence of the group-creation wizard; `askName` and
`groupReminder` terminate (the state is reset). -/
def nextWizMode : WizMode → WizMode
  | WizMode.none => WizMode.none
  | WizMode.askName => WizMode.none
  | WizMode.groupName => WizMode.groupDescription
  | WizMode.groupDescription => WizMode.groupStartDate
  | WizMode.groupStartDate => WizMode.groupEndDate
  | WizMode.groupEndDate => WizMode.groupReminder
  | WizMode.groupReminder => WizMode.none

/-- One inbound message consumed by the `userState` mode handlers
(part_004 289-503).  `createOk` is the outcome of the
`createGroupWithLeader` call made on the final step: `true` for the
success path, `false` for the `catch` path; both paths run
`userState.set(phone, {})`. -/
def wizardStep (st : WizState) (text : String) (nowIso : String)
    (createOk : Bool) : WizState :=
  match st.mode with
  | WizMode.none => st
  | WizMode.askName => emptyWizState
  | WizMode.groupName =>
    ⟨WizMode.groupDescription,
     ⟨some text, st.data.description, st.data.startDate, st.data.endDate,
      st.data.reminderFrequency⟩⟩
  | WizMode.groupDescription =>
    ⟨WizMode.groupStartDate,
     ⟨st.data.name, some text, st.data.startDate, st.data.endDate,
      st.data.reminderFrequency⟩⟩
  | WizMode.groupStartDate =>
    let sd := if text.toLower = "today" then nowIso else text
    ⟨WizMode.groupEndDate,
     ⟨st.data.name, st.data.description, some sd, st.data.endDate,
      st.data.reminderFrequency⟩⟩
  | WizMode.groupEndDate =>
    let ed := if text.toLower = "none" ∨ text.toLower = "no" then "" else text
    ⟨WizMode.groupReminder,
     ⟨st.data.name, st.data.description, st.data.startDate, some ed,
      st.data.reminderFrequency⟩⟩
  | WizMode.groupReminder =>
    match createOk with
    | true => emptyWizState
    | false => emptyWizState

/-! ## InviteWorkflow (src/unnamed/part_004 506-561) -/

/-- A row of the JoinRequests table written by the part_004 invite
handler. -/
structure JoinRequest where
  memberPhone : String
  leaderPhone : String
  groupId : ℕ
  status : String
  requestedAt : String
deriving DecidableEq, Repr

/-- The part_004 Airtable slice touched by the invite flow. -/
structure St4 where
  members : List Member
  groups : List Group
  joinRequests : List JoinRequest
deriving DecidableEq, Repr

/-- Replies sent by the invite handler. -/
inductive Reply4 where
  /-- Reply `I can\x27t find a group called ...` -/
  | noSuchGroup (g : String)
  /-- Reply `Only the group leader can invite members.` -/
  | onlyLeader
  /-- Reply `That member has not messaged this bot before, so I can\x27t invite
  them yet.` -/
  | memberUnknown
  /-- leader ack `Invitation sent to ...` -/
  | inviteSent (phone : String)
  /-- invitee prompt `You\x27ve been invited to join ... Reply YES ...` -/
  | invitePrompt (groupName : String)
deriving DecidableEq, Repr

/-- JS `memberPhone = inviteMatch[1].replace(/\D/g, '')`. -/
def digitsOnly (s : String) : String := String.mk (s.data.filter Char.isDigit)

/-- The `inviteMatch` branch of the part_004 webhook (506-561): the raw
phone capture and group-name capture are taken after the
`/^add\s+(\+?\d{10,15})\s+(?:to|into)\s+(.+)$/i` parse.  A validated
invite unconditionally creates one `Pending` JoinRequests row — there is
no check for an existing pending row.  Returns (new store, reply to the
sender, optional message to the invitee). -/
def inviteStep (fromPhone rawPhone groupName : String) (st : St4)
    (nowIso : String) : St4 × Reply4 × Option Reply4 :=
  let memberPhone := digitsOnly rawPhone
  match getGroupByName groupName st.groups with
  | none => (st, Reply4.noSuchGroup groupName, none)
  | some g =>
    if g.leaderPhone ≠ fromPhone then (st, Reply4.onlyLeader, none)
    else
      match getMemberByPhone memberPhone st.members with
      | none => (st, Reply4.memberUnknown, none)
      | some _ =>
        (⟨st.members, st.groups,
          st.joinRequests ++ [⟨memberPhone, fromPhone, g.id, "Pending", nowIso⟩]⟩,
         Reply4.inviteSent memberPhone, some (Reply4.invitePrompt g.name))

/-- Pending rows for one (member, group) pair. -/
def pendingPairCount (memberPhone : String) (gid : ℕ) (l : List JoinRequest) :
    ℕ :=
  l.countP (fun r =>
    r.memberPhone == memberPhone && r.groupId == gid && r.status == "Pending")

/-! ## part_001 member-initiated join flow (src/unnamed/part_001
104-153) -/

/-- A row of the part_001 JoinRequests table
(`MemberID`, `Group`, `Status`, `RequestDate`). -/
structure JR1 where
  memberId : String
  group : String
  status : String
  requestDate : String
deriving DecidableEq, Repr

/-- Replies sent by the part_001 webhook. -/
inductive Reply1 where
  /-- Reply `You already have a join request for this group.` -/
  | alreadyRequested
  /-- Reply `Your join request has been received and approved.` -/
  | receivedApproved
  /-- Reply `Message received. If you want to join, say ...` -/
  | genericReply
deriving DecidableEq, Repr

/-- JS `isJoinRequestMessage`: any of the keywords occurs in the lowercased
text (substring containment, no word boundaries). -/
def isJoinRequestMessage (text : List Char) : Bool :=
  ["join".data, "add me".data, "request".data, "sign me up".data].any
    (fun w => (List.range (lowerL text).length).any
      (fun i => startsWithL w ((lowerL text).drop i)))

/-- The filter `{MemberID} = m AND {Group} = g` (any status). -/
def jr1PairPred (memberId group : String) : JR1 → Bool :=
  fun r => r.memberId == memberId && r.group == group

/-- The duplicate check of the part_001 webhook (126-129):
`{MemberID} = m AND {Group} = g`, any status, first row. -/
def findJR1 (memberId group : String) (l : List JR1) : Option JR1 :=
  l.find? (jr1PairPred memberId group)

/-- The part_001 webhook body (112-145) for a text message: on a join
keyword, an existing row for (member, `"DefaultGroup"`) makes the handler
a no-op with the distinct already-requested reply; otherwise one row is
created as `pending` and immediately `approved`. -/
def joinStep1 (memberId : String) (text : List Char) (l : List JR1)
    (nowIso : String) : List JR1 × Reply1 :=
  let groupName := "DefaultGroup"
  if isJoinRequestMessage text then
    match findJR1 memberId groupName l with
    | some _ => (l, Reply1.alreadyRequested)
    | none =>
      (l ++ [⟨memberId, groupName, "approved", nowIso⟩],
       Reply1.receivedApproved)
  else (l, Reply1.genericReply)

/-- Rows for one (member, group) pair in the part_001 table. -/
def jr1PairCount (memberId group : String) (l : List JR1) : ℕ :=
  l.countP (jr1PairPred memberId group)

/-! ## Dispatcher acknowledgement (C4) -/

/-- Outcome of the `try` block of a POST /webhook handler. -/
inductive DispatchResult where
  /-- the handler ran to completion (every such path has already sent a
  200 response) -/
  | completed
  /-- an uncaught error reached the `catch` handler -/
  | thrown
deriving DecidableEq, Repr

/-- HTTP status answered by the src/api/index.js POST /webhook handler:
200 on every completed path (581, 584), `res.status(500)` in the catch
handler (586-589). -/
def webhookStatus_api : DispatchResult → ℕ
  | DispatchResult.completed => 200
  | DispatchResult.thrown => 500

/-- HTTP status answered by the src/unnamed/part_004 POST /webhook
handler: `res.sendStatus(200)` on every completed path and also in the
catch handler (700-703). -/
def webhookStatus_part004 : DispatchResult → ℕ
  | DispatchResult.completed => 200
  | DispatchResult.thrown => 200

/-- HTTP success class. -/
def isSuccessStatus (s : ℕ) : Bool := 200 ≤ s && s < 300

/-! ## Concrete fixtures used by witnesses and counterexamples -/

/-- A member whose stored name is a real name (not a placeholder). -/
def johnMember : Member := ⟨1, "John", "p1", "p1", none, none, "Active", "2025-01-01"⟩

def johnStore : List Member := [johnMember]

def inviteGroup : Group := ⟨10, "Savers Circle", "L1"⟩

def inviteStore0 : St4 :=
  ⟨[⟨1, "Leader", "L1", "L1", none, none, "Active", "2025-01-01"⟩,
    ⟨2, "Mamta", "2348012345678", "2348012345678", none, none, "Active",
     "2025-01-02"⟩],
   [inviteGroup], []⟩

def inviteStore1 : St4 :=
  (inviteStep "L1" "+2348012345678" "Savers Circle" inviteStore0 "t1").1

def inviteStore2 : St4 :=
  (inviteStep "L1" "+2348012345678" "Savers Circle" inviteStore1 "t2").1

/-- A member already linked to a leader. -/
def bolaMember : Member := ⟨3, "Bola", "p7", "p7", some "L1", none, "Active", "2025-01-03"⟩

def bolaStore : Store3 := ⟨[bolaMember], [], [], []⟩

/-- A pending payment that a leader has already approved. -/
def approvedStore : Store3 :=
  ⟨[], [], [], [⟨5, "p7", "L1", 500000, "Approved", "2025-01-04"⟩]⟩

def emptyStore3 : Store3 := ⟨[], [], [], []⟩

def jr1Row : JR1 := ⟨"M1", "DefaultGroup", "approved", "t0"⟩

/-! ## Helper lemmas -/

theorem find?_append_of_none {α : Type} (p : α → Bool) (l₁ l₂ : List α)
    (h : l₁.find? p = none) : (l₁ ++ l₂).find? p = l₂.find? p := by
  induction l₁ with
  | nil => rfl
  | cons a t ih =>
    by_cases hp : p a
    · rw [List.find?_cons_of_pos _ hp] at h
      exact Option.noConfusion h
    · rw [List.find?_cons_of_neg _ hp] at h
      rw [List.cons_append, List.find?_cons_of_neg _ hp]
      exact ih h

theorem countP_zero_of_find?_none {α : Type} (p : α → Bool) (l : List α)
    (h : l.find? p = none) : l.countP p = 0 := by
  induction l with
  | nil => rfl
  | cons a t ih =>
    by_cases hp : p a
    · rw [List.find?_cons_of_pos _ hp] at h
      exact Option.noConfusion h
    · rw [List.find?_cons_of_neg _ hp] at h
      rw [List.countP_cons, ih h, if_neg hp]

/-- The name branch never produces a payment intent. -/
theorem nameBranch_ne_payment (msg : List Char) (a : ℕ) :
    nameBranch msg ≠ some (Intent.payment a) := by
  intro hc
  unfold nameBranch at hc
  cases h : nameSearch msg with
  | none => rw [h] at hc; exact Option.noConfusion hc
  | some cap =>
    rw [h] at hc
    dsimp only at hc
    split at hc
    · exact Intent.noConfusion (Option.some.inj hc)
    · exact Option.noConfusion hc

/-- Characterization of a payment intent produced by the payment
branch. -/
theorem paymentBranch_characterization (msg lmsg : List Char) (a : ℕ)
    (h : paymentBranch msg lmsg = some (Intent.payment a)) :
    (0 < a ∧ a < 100000000) ∧
    ∃ am, firstAmountMatch msg = some am ∧ a = finalAmountH am := by
  unfold paymentBranch at h
  cases ham : firstAmountMatch msg with
  | none => rw [ham] at h; exact Option.noConfusion h
  | some am =>
    rw [ham] at h
    dsimp only at h
    by_cases hk : hasPaymentKeyword lmsg = true
    · rw [if_pos hk] at h
      by_cases hr : 0 < finalAmountH am ∧ finalAmountH am < 100000000
      · rw [if_pos hr] at h
        have hval : finalAmountH am = a := Intent.payment.inj (Option.some.inj h)
        exact ⟨hval ▸ hr, am, rfl, hval.symm⟩
      · rw [if_neg hr] at h
        exact Option.noConfusion h
    · rw [if_neg hk] at h
      exact Option.noConfusion h

/-- Hundredth bounds translate to the JS value bounds. -/
theorem amountVal_bounds (h : ℕ) (h1 : 0 < h) (h2 : h < 100000000) :
    0 < amountVal h ∧ amountVal h < 1000000 := by
  unfold amountVal
  constructor
  · apply div_pos
    · exact_mod_cast h1
    · norm_num
  · rw [div_lt_iff₀ (by norm_num : (0:ℚ) < 100)]
    calc ((h : ℚ)) < 100000000 := by exact_mod_cast h2
    _ = 1000000 * 100 := by norm_num

/-! ## Claims -/

/-- C2 counterexample: the claim asserts TTL = 10 minutes, but
`setPendingAction` (src/api/index.js 51-58 and src/unnamed/part_003
622-629) arms `expiresAt = now + 5 * 60 * 1000`; a confirmation arriving
one millisecond before the claimed 10-minute deadline already finds no
pending action. -/
theorem C2_ttl_counterexample :
    (setPendingAction 0 (PAction.payment 500000)).expiresAt ≠ 0 + 10 * 60 * 1000 ∧
    (getPendingAction (0 + 10 * 60 * 1000 - 1)
      (some (setPendingAction 0 (PAction.payment 500000)))).1 = none := by
  constructor
  · decide
  · decide

/-- C2 amended: a PendingAction proposed at time T has
`expiresAt = T + TTL` with TTL equal to 5 minutes (300000 ms), not 10;
for 0 < ε ≤ TTL, `getPendingAction` at `T + TTL - ε` still returns the
action, and at `T + TTL + ε` it deletes the record and returns none. -/
theorem C2_ttl_amended (T ε : ℕ) (a : PAction) (h1 : 0 < ε)
    (h2 : ε ≤ 5 * 60 * 1000) :
    (setPendingAction T a).expiresAt = T + 5 * 60 * 1000 ∧
    (getPendingAction (T + 5 * 60 * 1000 - ε) (some (setPendingAction T a))).1
      = some (setPendingAction T a) ∧
    getPendingAction (T + 5 * 60 * 1000 + ε) (some (setPendingAction T a))
      = (none, none) := by
  refine ⟨rfl, ?_, ?_⟩
  · show (if (T + 5 * 60 * 1000 : ℕ) < T + 5 * 60 * 1000 - ε then
        ((none : Option PendingRec), (none : Option PendingRec))
      else (some (setPendingAction T a), some (setPendingAction T a))).1
      = some (setPendingAction T a)
    rw [if_neg (by omega)]
  · show (if (T + 5 * 60 * 1000 : ℕ) < T + 5 * 60 * 1000 + ε then
        ((none : Option PendingRec), (none : Option PendingRec))
      else (some (setPendingAction T a), some (setPendingAction T a)))
      = (none, none)
    rw [if_pos (by omega)]

theorem C2_ttl_amended_witness :
    (setPendingAction 0 (PAction.payment 500000)).expiresAt = 0 + 5 * 60 * 1000 ∧
    (getPendingAction (0 + 5 * 60 * 1000 - 1)
      (some (setPendingAction 0 (PAction.payment 500000)))).1
      = some (setPendingAction 0 (PAction.payment 500000)) ∧
    getPendingAction (0 + 5 * 60 * 1000 + 1)
      (some (setPendingAction 0 (PAction.payment 500000)))
      = (none, none) :=
  C2_ttl_amended 0 1 (PAction.payment 500000) (by decide) (by decide)

/-- C3 counterexample: the claim asserts that the suffix `k` always
multiplies the parsed amount by 1000, in particular that "1.5k" with a
payment verb yields 1500; but the amount regex only captures a decimal
part of exactly two digits, so on "I paid 1.5k" capture group 1 is "1",
the `k` is not captured, and the produced payment amount is 1, not
1500. -/
theorem C3_k_suffix_counterexample :
    detectIntent ("I paid 1.5k".data) = some (Intent.payment 100) ∧
    amountVal 100 = 1 ∧ amountVal 100 ≠ 1500 := by
  refine ⟨by decide, ?_, ?_⟩
  · unfold amountVal; norm_num
  · unfold amountVal; norm_num

/-- C3 amended: whenever a payment intent is produced, its amount lies
strictly between 0 and 1,000,000 and equals the regex-captured value
multiplied by 1000 exactly when the `k` suffix was captured; the suffix
is captured only directly after an integer or two-digit-decimal amount,
so "I paid 1.50k" yields 1500 and "I paid 50" yields 50, while
"I paid 2,000,000" is rejected as out of range and produces no
intent. -/
theorem C3_payment_amount_amended :
    (∀ (msg : List Char) (a : ℕ),
      detectIntent msg = some (Intent.payment a) →
      (0 < amountVal a ∧ amountVal a < 1000000) ∧
      ∃ am, firstAmountMatch msg = some am ∧ a = finalAmountH am) ∧
    (detectIntent ("I paid 1.50k".data) = some (Intent.payment 150000) ∧
      amountVal 150000 = 1500) ∧
    (detectIntent ("I paid 50".data) = some (Intent.payment 5000) ∧
      amountVal 5000 = 50) ∧
    detectIntent ("I paid 2,000,000".data) = none := by
  refine ⟨?_, ⟨by decide, by unfold amountVal; norm_num⟩,
    ⟨by decide, by unfold amountVal; norm_num⟩, by decide⟩
  intro msg a h
  have hchar : (0 < a ∧ a < 100000000) ∧
      ∃ am, firstAmountMatch msg = some am ∧ a = finalAmountH am := by
    unfold detectIntent at h
    cases hp : paymentBranch msg (lowerL msg) with
    | some i =>
      rw [hp] at h
      have hi : i = Intent.payment a := Option.some.inj h
      rw [hi] at hp
      exact paymentBranch_characterization msg (lowerL msg) a hp
    | none =>
      rw [hp] at h
      exact absurd h (nameBranch_ne_payment msg a)
  exact ⟨amountVal_bounds a hchar.1.1 hchar.1.2, hchar.2⟩

theorem C3_payment_amount_witness :
    (0 < amountVal 5000 ∧ amountVal 5000 < 1000000) ∧
    ∃ am, firstAmountMatch ("I paid 50".data) = some am ∧
      5000 = finalAmountH am :=
  C3_payment_amount_amended.1 ("I paid 50".data) 5000 (by decide)

/-- C4 counterexample: the claim asserts that every POST /webhook
delivery is answered with an HTTP success status even when an uncaught
error is thrown, but the src/api/index.js catch handler (586-589)
answers `res.status(500)`. -/
theorem C4_status_counterexample :
    isSuccessStatus (webhookStatus_api DispatchResult.thrown) = false := by
  decide

/-- C4 amended: the part_004 POST /webhook handler answers 200 for every
delivery, including when an uncaught error reaches its catch handler;
the src/api/index.js handler answers 200 on every completed path but 500
when an uncaught error reaches its catch handler. -/
theorem C4_status_amended :
    webhookStatus_part004 DispatchResult.completed = 200 ∧
    webhookStatus_part004 DispatchResult.thrown = 200 ∧
    isSuccessStatus (webhookStatus_part004 DispatchResult.thrown) = true ∧
    webhookStatus_api DispatchResult.completed = 200 ∧
    webhookStatus_api DispatchResult.thrown = 500 := by
  exact ⟨rfl, rfl, rfl, rfl, rfl⟩

/-- C1 counterexample: in the leader-initiated invite flow (part_004
506-561) the claim fails — two identical invites of the same (member,
group) pair, the first JoinRequest still `Pending`, create two `Pending`
rows, and the second invite is answered with the normal invitation ack,
not an "already requested" reply. -/
theorem C1_invite_duplicate_counterexample :
    pendingPairCount "2348012345678" 10 inviteStore2.joinRequests = 2 ∧
    (inviteStep "L1" "+2348012345678" "Savers Circle" inviteStore1 "t2").2.1
      = Reply4.inviteSent "2348012345678" := by
  constructor
  · decide
  · decide

/-- C1 amended: the part_004 leader-invite flow performs no duplicate
check, so a second invite of a validated pair creates a second `Pending`
JoinRequest row; duplicate suppression with the distinct
"already requested" reply exists only in the part_001 member-initiated
join flow, which is a no-op when any row for the (member, group) pair
exists and therefore keeps at most one row per pair. -/
theorem C1_join_dedup_amended (memberId : String) (text : List Char)
    (l : List JR1) (nowIso : String) :
    (∀ r, isJoinRequestMessage text = true →
      findJR1 memberId "DefaultGroup" l = some r →
      joinStep1 memberId text l nowIso = (l, Reply1.alreadyRequested)) ∧
    (jr1PairCount memberId "DefaultGroup" l ≤ 1 →
      jr1PairCount memberId "DefaultGroup"
        (joinStep1 memberId text l nowIso).1 ≤ 1) := by
  constructor
  · intro r hmsg hfind
    unfold joinStep1
    rw [if_pos hmsg, hfind]
  · intro hinv
    unfold joinStep1
    by_cases hmsg : isJoinRequestMessage text = true
    · rw [if_pos hmsg]
      cases hfind : findJR1 memberId "DefaultGroup" l with
      | some r => exact hinv
      | none =>
        have hzero : jr1PairCount memberId "DefaultGroup" l = 0 :=
          countP_zero_of_find?_none _ _ hfind
        unfold jr1PairCount at hzero ⊢
        rw [List.countP_append, hzero]
        simp [jr1PairPred, List.countP_cons]
    · rw [if_neg hmsg]
      exact hinv

theorem C1_join_dedup_witness :
    joinStep1 "M1" ("join".data) [jr1Row] "t1" = ([jr1Row], Reply1.alreadyRequested) :=
  (C1_join_dedup_amended "M1" ("join".data) [jr1Row] "t1").1 jr1Row
    (by decide) (by decide)

/-- C5 counterexample: the claim asserts the confirmed name update is
written for every member whatever the stored name is, but the
src/api/index.js `updateMemberName` (185-202) refuses the write when the
stored name is neither the placeholder `"Unknown"` nor the phone number:
for a member already named "John" it returns false and leaves the store
unchanged. -/
theorem C5_name_update_counterexample :
    updateMemberName_api johnStore "p1" "Mary" = (false, johnStore) ∧
    getMemberByPhone "p1" johnStore = some johnMember ∧
    johnMember.fullName = "John" := by
  refine ⟨by decide, by decide, by decide⟩

/-- C5 amended: the part_003 `updateMemberName` (801-819) writes the new
display name unconditionally for every existing member, whatever the
stored name is; the src/api/index.js variant performs the write only when
the stored name is `"Unknown"` or equals the phone number. -/
theorem C5_name_update_amended (members : List Member) (phone newName : String)
    (m : Member) (h : getMemberByPhone phone members = some m) :
    (updateMemberName members phone newName).1 = true ∧
    withName m newName ∈ (updateMemberName members phone newName).2 := by
  unfold updateMemberName
  rw [h]
  refine ⟨rfl, ?_⟩
  unfold getMemberByPhone at h
  have hm : m ∈ members := List.mem_of_find?_eq_some h
  have hmap := List.mem_map_of_mem
    (fun x => if x.id = m.id then withName x newName else x) hm
  simpa using hmap

theorem C5_name_update_witness :
    (updateMemberName johnStore "p1" "Mary").1 = true ∧
    withName johnMember "Mary" ∈ (updateMemberName johnStore "p1" "Mary").2 :=
  C5_name_update_amended johnStore "p1" "Mary" johnMember (by decide)

/-- C6: while a wizard is active (`mode ≠ none`), one inbound message
either advances the mode to the immediately next step of the fixed
sequence or resets it to `none`; in particular `group_name` always
advances exactly to `group_description` (no step is skipped), and on the
finalizing step the state is reset to the empty state whatever the
outcome of the store write — including when it fails. -/
theorem C6_wizard_advance (st : WizState) (text nowIso : String) (ok : Bool)
    (h : st.mode ≠ WizMode.none) :
    ((wizardStep st text nowIso ok).mode = nextWizMode st.mode ∨
      (wizardStep st text nowIso ok).mode = WizMode.none) ∧
    (st.mode = WizMode.groupReminder → wizardStep st text nowIso ok = emptyWizState) ∧
    (st.mode = WizMode.groupName →
      (wizardStep st text nowIso ok).mode = WizMode.groupDescription) := by
  obtain ⟨mode, data⟩ := st
  cases mode with
  | none => exact absurd rfl h
  | askName => exact ⟨Or.inl rfl, fun hc => WizMode.noConfusion hc, fun hc => WizMode.noConfusion hc⟩
  | groupName => exact ⟨Or.inl rfl, fun hc => WizMode.noConfusion hc, fun _ => rfl⟩
  | groupDescription => exact ⟨Or.inl rfl, fun hc => WizMode.noConfusion hc, fun hc => WizMode.noConfusion hc⟩
  | groupStartDate => exact ⟨Or.inl rfl, fun hc => WizMode.noConfusion hc, fun hc => WizMode.noConfusion hc⟩
  | groupEndDate => exact ⟨Or.inl rfl, fun hc => WizMode.noConfusion hc, fun hc => WizMode.noConfusion hc⟩
  | groupReminder =>
    cases ok with
    | true => exact ⟨Or.inr rfl, fun _ => rfl, fun hc => WizMode.noConfusion hc⟩
    | false => exact ⟨Or.inr rfl, fun _ => rfl, fun hc => WizMode.noConfusion hc⟩

theorem C6_wizard_advance_witness :
    (wizardStep ⟨WizMode.groupName, emptyWizData⟩ "Savers Circle" "2025-01-01" true).mode
      = WizMode.groupDescription ∧
    wizardStep ⟨WizMode.groupReminder,
        ⟨some "Savers Circle", some "For monthly savings", some "2025-01-01",
         some "", none⟩⟩ "weekly" "2025-01-01" false = emptyWizState :=
  ⟨(C6_wizard_advance ⟨WizMode.groupName, emptyWizData⟩ "Savers Circle"
      "2025-01-01" true (by decide)).2.2 rfl,
   (C6_wizard_advance ⟨WizMode.groupReminder,
      ⟨some "Savers Circle", some "For monthly savings", some "2025-01-01",
       some "", none⟩⟩ "weekly" "2025-01-01" false (by decide)).2.1 rfl⟩

/-- C7: in the confirmed-payment execution (part_003 1371-1393), a sender
with no assigned leader gets the guidance reply and no store write at
all, while a sender with a leader gets a new `"Awaiting Leader"`
pending-payment row (contributions untouched) and the leader is notified
with the opaque record id needed for confirm/reject. -/
theorem C7_payment_confirm_paths (phone : String) (mr : Option Member)
    (a : ℕ) (st : Store3) (pid gid : ℕ) (nowIso : String) :
    ((getMemberByPhone phone st.members = none →
        executeAction phone mr (PAction.payment a) st pid gid nowIso
          = (st, Reply3.noLeaderGuidance a, none)) ∧
      (∀ m, getMemberByPhone phone st.members = some m → leaderOf m = none →
        executeAction phone mr (PAction.payment a) st pid gid nowIso
          = (st, Reply3.noLeaderGuidance a, none))) ∧
    (∀ m l, getMemberByPhone phone st.members = some m → leaderOf m = some l →
      executeAction phone mr (PAction.payment a) st pid gid nowIso
        = (⟨st.members, st.groups, st.contributions,
            st.pendingPayments ++ [⟨pid, phone, l, a, "Awaiting Leader", nowIso⟩]⟩,
           Reply3.paymentPendingThanks a,
           some (Reply3.leaderConfirmRequest (memberNameOr m phone) phone a pid))) := by
  refine ⟨⟨?_, ?_⟩, ?_⟩
  · intro hnone
    unfold executeAction
    rw [hnone]
  · intro m hm hl
    unfold executeAction
    rw [hm]
    dsimp only
    rw [hl]
  · intro m l hm hl
    unfold executeAction
    rw [hm]
    dsimp only
    rw [hl]
    rfl

theorem C7_payment_confirm_witness :
    executeAction "p7" (some bolaMember) (PAction.payment 500000) bolaStore 42 0 "t"
      = (⟨[bolaMember], [], [],
          [⟨42, "p7", "L1", 500000, "Awaiting Leader", "t"⟩]⟩,
         Reply3.paymentPendingThanks 500000,
         some (Reply3.leaderConfirmRequest "Bola" "p7" 500000 42)) :=
  (C7_payment_confirm_paths "p7" (some bolaMember) 500000 bolaStore 42 0 "t").2
    bolaMember "L1" (by decide) (by decide)

/-- C8: `ensureMember` is idempotent — a second call with the same
identity finds the record the first call returned and changes nothing, so
two sequential calls never create two Member records. -/
theorem C8_ensureMember_idempotent (phone : String) (name : Option String)
    (members : List Member) (n1 n2 : ℕ) (d1 d2 : String) :
    ensureMember phone name ((ensureMember phone name members n1 d1).2) n2 d2
      = ensureMember phone name members n1 d1 := by
  unfold ensureMember
  cases h : getMemberByPhone phone members with
  | some m => rw [h]
  | none =>
    dsimp only
    have hfound : getMemberByPhone phone
        (members ++ [⟨n1, name.getD "Unknown", phone, phone, none, none,
          "Active", d1⟩])
        = some ⟨n1, name.getD "Unknown", phone, phone, none, none,
          "Active", d1⟩ := by
      unfold getMemberByPhone at h ⊢
      rw [find?_append_of_none _ _ _ h]
      simp
    rw [hfound]

/-- C9: the leader `confirm payment <id>` handler mutates the store only
when the referenced pending payment is exactly `"Awaiting Leader"`; when
the row is already `Approved` or `Rejected` (any other status) it
performs no mutation and replies that the request is already in that
status. -/
theorem C9_leader_confirm_guard (pid : ℕ) (st : Store3) (cyc today : String) :
    (∀ pp, findPendingPayment pid st.pendingPayments = some pp →
      pp.status ≠ "Awaiting Leader" →
      leaderConfirmStep pid st cyc today
        = (st, Reply3.alreadyStatus pp.status, none)) ∧
    ((leaderConfirmStep pid st cyc today).1 ≠ st →
      ∃ pp, findPendingPayment pid st.pendingPayments = some pp ∧
        pp.status = "Awaiting Leader") := by
  constructor
  · intro pp hfind hstatus
    unfold leaderConfirmStep
    rw [hfind]
    dsimp only
    rw [if_pos hstatus]
  · intro hne
    unfold leaderConfirmStep at hne
    cases hfind : findPendingPayment pid st.pendingPayments with
    | none => rw [hfind] at hne; exact absurd rfl hne
    | some pp =>
      rw [hfind] at hne
      dsimp only at hne
      by_cases hstatus : pp.status ≠ "Awaiting Leader"
      · rw [if_pos hstatus] at hne
        exact absurd rfl hne
      · exact ⟨pp, rfl, not_not.mp hstatus⟩

theorem C9_leader_confirm_witness :
    leaderConfirmStep 5 approvedStore "2025-01" "2025-01-15"
      = (approvedStore, Reply3.alreadyStatus "Approved", none) :=
  (C9_leader_confirm_guard 5 approvedStore "2025-01" "2025-01-15").1
    ⟨5, "p7", "L1", 500000, "Approved", "2025-01-04"⟩ (by decide) (by decide)

/-- C10: once an unexpired PendingAction is matched by a confirmation
message, the confirmation branch clears it unconditionally — whatever the
execution of the action did to the backing store, including failed
writes — and a later confirmation finds no pending action, executes
nothing and changes nothing. -/
theorem C10_pending_cleared (phone : String) (mr : Option Member)
    (text : List Char) (now : ℕ) (pend : Option PendingRec) (st : Store3)
    (pid gid : ℕ) (nowIso : String) (r : PendingRec)
    (h1 : (getPendingAction now pend).1 = some r)
    (h2 : isConfirmText text = true) :
    (webhookConfirmStep phone mr text now pend st pid gid nowIso).1 = none ∧
    ∀ (mr' : Option Member) (text' : List Char) (now' : ℕ) (st' : Store3)
      (pid' gid' : ℕ) (iso' : String),
      webhookConfirmStep phone mr' text' now'
        (webhookConfirmStep phone mr text now pend st pid gid nowIso).1
        st' pid' gid' iso' = (none, st', false) := by
  have hfst : (webhookConfirmStep phone mr text now pend st pid gid nowIso).1
      = none := by
    unfold webhookConfirmStep
    dsimp only
    rw [h1]
    dsimp only
    rw [if_pos h2]
    rfl
  refine ⟨hfst, ?_⟩
  intro mr' text' now' st' pid' gid' iso'
  rw [hfst]
  unfold webhookConfirmStep getPendingAction
  rfl

theorem C10_pending_cleared_witness :
    (webhookConfirmStep "p9" none ("yes".data) 1000
        (some (setPendingAction 0 (PAction.nameUpdate "Mary".data)))
        emptyStore3 0 0 "t").1 = none :=
  (C10_pending_cleared "p9" none ("yes".data) 1000
    (some (setPendingAction 0 (PAction.nameUpdate "Mary".data)))
    emptyStore3 0 0 "t" (setPendingAction 0 (PAction.nameUpdate "Mary".data))
    (by decide) (by decide)).1

end Adashi
